import Mathlib

/-!
Verification of the board-v2 collaborative whiteboard server and client.

JavaScript numbers are modelled as rationals (ℚ); all arithmetic in the
verified fragments is exact on the concrete values involved.  Absent JSON
request fields are modelled as `none` of an `Option`; JavaScript truthiness
on strings (non-empty) and numbers (non-zero) is made explicit.  All
modelled functions are total, so "never throws" claims are reflected by
totality plus the explicit no-op results proved below.
-/

attribute [local semireducible] Rat.add Rat.mul Rat.sub Rat.inv Rat.ofScientific

namespace Board

/-- A board item as stored in the item collection (api servers and client). -/
structure Item where
  id : String
  type : String
  x : ℚ
  y : ℚ
  width : ℚ
  height : ℚ
  content : String
  color : String
  rotation : ℚ
  createdAt : ℚ
  updatedAt : ℚ
  deriving Repr, DecidableEq

/-- Default item used to totalise list indexing (never reached in practice). -/
def itemDefault : Item :=
  { id := "", type := "", x := 0, y := 0, width := 0, height := 0,
    content := "", color := "", rotation := 0, createdAt := 0, updatedAt := 0 }

instance : Inhabited Item := ⟨itemDefault⟩

/-- A rectangular zone in world coordinates. -/
structure Zone where
  x : ℚ
  y : ℚ
  width : ℚ
  height : ℚ

/-- The Task Management Zone boundaries (api servers). -/
def TASK_ZONE : Zone := { x := 4200, y := 0, width := 2000, height := 2100 }

/-- Space between items and zone border in `findTaskZonePosition`. -/
def taskPadding : ℚ := 60

/-- Standard row height for items in `findTaskZonePosition`. -/
def taskRowHeight : ℚ := 490

/-- Standard column width for items in `findTaskZonePosition`. -/
def taskColWidth : ℚ := 560

/-- Whether an item's stored position lies in the Task Management Zone
rectangle, exactly as the servers test it (half-open on the far edges). -/
def inTaskZoneRect (item : Item) : Bool :=
  decide (TASK_ZONE.x ≤ item.x) && decide (item.x < TASK_ZONE.x + TASK_ZONE.width) &&
  decide (TASK_ZONE.y ≤ item.y) && decide (item.y < TASK_ZONE.y + TASK_ZONE.height)

/-- The grid-managed ("API item") types of the Task Management Zone. -/
def isApiItemType (t : String) : Bool :=
  t == "agent" || t == "todo" || t == "lab-result"

/-- The filter applied by `findTaskZonePosition` to the existing items. -/
def taskZoneFilter (existingItems : List Item) : List Item :=
  existingItems.filter (fun item => inTaskZoneRect item && isApiItemType item.type)

/-- Grid column count: `Math.floor(TASK_ZONE.width / colWidth)`. -/
def maxCols : ℕ := (Rat.floor (TASK_ZONE.width / taskColWidth)).toNat

/-- Grid row count: `Math.floor(TASK_ZONE.height / rowHeight)`. -/
def maxRows : ℕ := (Rat.floor (TASK_ZONE.height / taskRowHeight)).toNat

/-- The initially all-free occupancy grid (`maxRows` rows of `maxCols` cells). -/
def initialGrid : List (List Bool) :=
  List.replicate maxRows (List.replicate maxCols false)

/-- Mark the grid cell computed for one existing item: floor division of its
offset from the zone origin (y adjusted by the 60px top offset), ignored when
the computed cell falls outside the grid bounds. -/
def markItem (grid : List (List Bool)) (item : Item) : List (List Bool) :=
  let col := Rat.floor ((item.x - TASK_ZONE.x) / taskColWidth)
  let row := Rat.floor ((item.y - TASK_ZONE.y - 60) / taskRowHeight)
  if 0 ≤ row ∧ row < (maxRows : ℤ) ∧ 0 ≤ col ∧ col < (maxCols : ℤ) then
    grid.set row.toNat ((grid.getD row.toNat []).set col.toNat true)
  else
    grid

/-- First unoccupied cell in row-major order (top row first, left first). -/
def firstFreeCell : List (List Bool) → Option (ℕ × ℕ)
  | [] => none
  | row :: rest =>
    match row.findIdx? (fun b => b == false) with
    | some c => some (0, c)
    | none => (firstFreeCell rest).map (fun rc => (rc.1 + 1, rc.2))

/-- Position computation of `findTaskZonePosition` on the already-filtered
task-zone items: occupancy grid, row-major scan, vertical-stack fallback. -/
def taskZoneCompute (taskZoneItems : List Item) : ℚ × ℚ :=
  let grid := taskZoneItems.foldl markItem initialGrid
  match firstFreeCell grid with
  | some rc =>
      (TASK_ZONE.x + (rc.2 : ℚ) * taskColWidth + taskPadding,
       TASK_ZONE.y + (rc.1 : ℚ) * taskRowHeight + 60)
  | none =>
      (TASK_ZONE.x + taskPadding,
       TASK_ZONE.y + 60 + (taskZoneItems.length : ℚ) * (taskRowHeight + taskPadding))

/-- `findTaskZonePosition(newItem, existingItems)` from the api servers:
filter the store to grid-managed items inside the Task Management Zone, mark
their cells, and return the first free cell (or the overflow fallback).  The
candidate item is only logged by the source and does not affect the result. -/
def findTaskZonePosition (_newItem : Item) (existingItems : List Item) : ℚ × ℚ :=
  taskZoneCompute (taskZoneFilter existingItems)

/-- The occupancy grid built by `findTaskZonePosition` for a given store. -/
def gridOf (items : List Item) : List (List Bool) :=
  (taskZoneFilter items).foldl markItem initialGrid

/-- The `tempItem` candidate passed by the todo-creation endpoint. -/
def tempTodoItem : Item :=
  { itemDefault with type := "todo", width := 420, height := 400 }

/-- World position of the grid cell at (row, col) as returned by the scan:
x = zone.x + col·colWidth + padding, y = zone.y + row·rowHeight + padding. -/
def gridCellXY (row col : ℕ) : ℚ × ℚ :=
  (TASK_ZONE.x + (col : ℚ) * taskColWidth + taskPadding,
   TASK_ZONE.y + (row : ℚ) * taskRowHeight + taskPadding)

/-- The item appended by the n-th grid-managed creation: `spec n` gives its
declared type, width and height; its position is the allocator's choice. -/
def mkCreatedItem (spec : ℕ → String × ℚ × ℚ) (n : ℕ) (pos : ℚ × ℚ) : Item :=
  { id := toString n, type := (spec n).1, x := pos.1, y := pos.2,
    width := (spec n).2.1, height := (spec n).2.2,
    content := "", color := "", rotation := 0, createdAt := 0, updatedAt := 0 }

/-- Store contents after n successive grid-managed creations without explicit
coordinates, starting from `base`: each creation allocates against the
current store and appends the created item (as the endpoints do). -/
def createSeqFrom (base : List Item) (spec : ℕ → String × ℚ × ℚ) : ℕ → List Item
  | 0 => base
  | n + 1 =>
    let s := createSeqFrom base spec n
    s ++ [mkCreatedItem spec n (findTaskZonePosition tempTodoItem s)]

/-- The canonical creation sequence: plain todos of the endpoint's size. -/
def spec0 : ℕ → String × ℚ × ℚ := fun _ => ("todo", 420, 400)

/-- Projection of an item to the data `findTaskZonePosition` can observe:
position and grid-managed-ness. -/
def projP (item : Item) : ℚ × ℚ × Bool := (item.x, item.y, isApiItemType item.type)

/-- Axis-aligned rectangle overlap test `checkCollision` from the file server
(touching edges do not collide). -/
def checkCollision (item1 item2 : Item) : Bool :=
  let noCollision :=
    decide (item1.x + item1.width ≤ item2.x) ||
    decide (item2.x + item2.width ≤ item1.x) ||
    decide (item1.y + item1.height ≤ item2.y) ||
    decide (item2.y + item2.height ≤ item1.y)
  !noCollision

/-! ### Camera animation (Canvas.tsx `centerOnItem`) -/

/-- Client-session viewport: translation offset and zoom. -/
structure Viewport where
  x : ℚ
  y : ℚ
  zoom : ℚ
  deriving Repr, DecidableEq

/-- `clampZoom` from `centerOnItem`: clamp into [0.1, 3]. -/
def clampZoom (z : ℚ) : ℚ := max 0.1 (min 3 z)

/-- The quadratic symmetric ease-in-ease-out curve from `centerOnItem`. -/
def easeInOut (t : ℚ) : ℚ := if t < 0.5 then 2 * t * t else -1 + (4 - 2 * t) * t

/-- World coordinates of the point rendered at the screen center (this is
exactly `getViewportCenterWorld` exposed by Canvas.tsx). -/
def worldAtScreenCenter (containerWidth containerHeight : ℚ) (vp : Viewport) : ℚ × ℚ :=
  ((containerWidth / 2 - vp.x) / vp.zoom, (containerHeight / 2 - vp.y) / vp.zoom)

/-- The viewport that `centerOnItem(itemId, finalZoom, duration)`'s animation
frame callback writes at a given elapsed time, from start viewport `start`.
If the item id does not resolve, the function returns early and the viewport
is unchanged. -/
def centerOnItemFrame (containerWidth containerHeight : ℚ) (items : List Item)
    (start : Viewport) (itemId : String) (finalZoom duration elapsed : ℚ) : Viewport :=
  match items.find? (fun i => i.id == itemId) with
  | none => start
  | some item =>
    let t1 := duration / 3
    let t2 := duration / 3 * 2
    let zoomOutZoom := clampZoom (start.zoom * 0.3)
    let targetObjectCenterX := item.x + item.width / 2
    let targetObjectCenterY := item.y + item.height / 2
    let targetViewportX := containerWidth / 2 - targetObjectCenterX * zoomOutZoom
    let targetViewportY := containerHeight / 2 - targetObjectCenterY * zoomOutZoom
    let finalViewportX := containerWidth / 2 - targetObjectCenterX * finalZoom
    let finalViewportY := containerHeight / 2 - targetObjectCenterY * finalZoom
    if elapsed ≤ t1 then
      let k := easeInOut (elapsed / t1)
      let currentZoom := start.zoom + (zoomOutZoom - start.zoom) * k
      let currentCenterX := (containerWidth / 2 - start.x) / start.zoom
      let currentCenterY := (containerHeight / 2 - start.y) / start.zoom
      { x := containerWidth / 2 - currentCenterX * currentZoom,
        y := containerHeight / 2 - currentCenterY * currentZoom,
        zoom := currentZoom }
    else if elapsed ≤ t2 then
      let k := easeInOut ((elapsed - t1) / (t2 - t1))
      let step1EndX := containerWidth / 2 - ((containerWidth / 2 - start.x) / start.zoom) * zoomOutZoom
      let step1EndY := containerHeight / 2 - ((containerHeight / 2 - start.y) / start.zoom) * zoomOutZoom
      { x := step1EndX + (targetViewportX - step1EndX) * k,
        y := step1EndY + (targetViewportY - step1EndY) * k,
        zoom := zoomOutZoom }
    else
      let k := easeInOut ((elapsed - t2) / (duration - t2))
      { x := targetViewportX + (finalViewportX - targetViewportX) * k,
        y := targetViewportY + (finalViewportY - targetViewportY) * k,
        zoom := zoomOutZoom + (finalZoom - zoomOutZoom) * k }

/-! ### JavaScript truthiness helpers -/

/-- JS truthiness of a possibly-absent string: present and non-empty. -/
def jsTruthyStr : Option String → Bool
  | some s => !(s == "")
  | none => false

/-- JS `a || b` on possibly-absent strings. -/
def jsOrStr (a b : Option String) : Option String :=
  if jsTruthyStr a then a else b

/-- JS `o || d` on a possibly-absent number: zero is falsy. -/
def jsOrNum (o : Option ℚ) (d : ℚ) : ℚ :=
  match o with
  | some v => if v = 0 then d else v
  | none => d

/-! ### Focus endpoint (server) and focus handling (client App.tsx) -/

/-- Caller-supplied focus options (all fields optional in the body). -/
structure FocusOptionsIn where
  zoom : Option ℚ
  highlight : Option Bool
  duration : Option ℚ
  scrollIntoView : Option Bool
  deriving Repr, DecidableEq

/-- A focus request body (also the shape of the broadcast focus payload the
client receives: `objectId`, `itemId`, `subElement`, `focusOptions`). -/
structure FocusBody where
  objectId : Option String
  itemId : Option String
  subElement : Option String
  focusOptions : Option FocusOptionsIn
  deriving Repr, DecidableEq

/-- Fully-defaulted focus options as broadcast by the server. -/
structure FocusOptions where
  zoom : ℚ
  highlight : Bool
  duration : ℚ
  scrollIntoView : Bool
  deriving Repr, DecidableEq

/-- Server defaults for focus options (redis server): higher zoom when a
sub-element is targeted. -/
def defaultFocusOptions (subElement : Option String) : FocusOptions :=
  { zoom := if jsTruthyStr subElement then 1.5 else 0.8,
    highlight := jsTruthyStr subElement,
    duration := 2000,
    scrollIntoView := true }

/-- JS shallow merge of caller-supplied focus options over the defaults. -/
def mergeFocusOptions (defaults : FocusOptions) (overrides : Option FocusOptionsIn) : FocusOptions :=
  match overrides with
  | none => defaults
  | some o =>
    { zoom := o.zoom.getD defaults.zoom,
      highlight := o.highlight.getD defaults.highlight,
      duration := o.duration.getD defaults.duration,
      scrollIntoView := o.scrollIntoView.getD defaults.scrollIntoView }

/-- One broadcast focus event: the normalized id is re-emitted under both the
legacy (`objectId`) and current (`itemId`) field names. -/
structure FocusEvent where
  objectId : String
  itemId : String
  subElement : Option String
  focusOptions : FocusOptions
  deriving Repr, DecidableEq

/-- Result of `POST /api/focus`: HTTP status, echoed response fields, and the
list of events broadcast to the SSE clients. -/
structure FocusResponse where
  status : ℕ
  success : Bool
  itemId : Option String
  subElement : Option String
  focusOptions : Option FocusOptions
  events : List FocusEvent
  deriving Repr, DecidableEq

/-- The 400 response (`objectId or itemId is required`); nothing broadcast. -/
def focusBadRequest : FocusResponse :=
  { status := 400, success := false, itemId := none, subElement := none,
    focusOptions := none, events := [] }

/-- `POST /api/focus` (redis server): normalize `itemId || objectId`, reject
falsy ids with 400, otherwise merge options over defaults, broadcast exactly
one focus event and acknowledge with 200. -/
def postFocus (body : FocusBody) : FocusResponse :=
  let targetId := jsOrStr body.itemId body.objectId
  match targetId with
  | none => focusBadRequest
  | some t =>
    if t == "" then focusBadRequest
    else
      let options := mergeFocusOptions (defaultFocusOptions body.subElement) body.focusOptions
      let sub := if jsTruthyStr body.subElement then body.subElement else none
      { status := 200, success := true, itemId := some t, subElement := sub,
        focusOptions := some options,
        events := [{ objectId := t, itemId := t, subElement := sub, focusOptions := options }] }

/-- Claim-side notion: the body carries the normalized identifier, i.e. the
first non-empty string among `itemId` and `objectId` (an absent or empty
field carries no identifier). -/
def normalizedId (body : FocusBody) : Option String :=
  if jsTruthyStr body.itemId then body.itemId
  else if jsTruthyStr body.objectId then body.objectId
  else none

/-- Target id extraction in the client handler (App.tsx):
`request.objectId || request.itemId`. -/
def appTargetId (req : FocusBody) : Option String :=
  jsOrStr req.objectId req.itemId

/-- Resolve a possibly-absent target id against the local item collection. -/
def findItemById (items : List Item) (targetId : Option String) : Option Item :=
  match targetId with
  | none => none
  | some t => items.find? (fun i => i.id == t)

/-- Viewport effect of the client `handleFocusRequest` (App.tsx): resolve the
target; on a miss only log and return (viewport untouched); on a hit call
`centerOnItem(targetId, zoom, duration)` with JS-defaulted options. -/
def handleFocusViewport (containerWidth containerHeight : ℚ) (items : List Item)
    (vp : Viewport) (req : FocusBody) (elapsed : ℚ) : Viewport :=
  match appTargetId req with
  | none => vp
  | some t =>
    match items.find? (fun i => i.id == t) with
    | none => vp
    | some _ =>
      let zoom := jsOrNum ((req.focusOptions).bind FocusOptionsIn.zoom) 0.8
      let duration := jsOrNum ((req.focusOptions).bind FocusOptionsIn.duration) 3000
      centerOnItemFrame containerWidth containerHeight items vp t zoom duration elapsed

/-- Highlight schedule of the client `handleFocusRequest` (App.tsx) for a
resolved request carrying a sub-element: the class is added by a timer that
fires 100 ms after handling (when the DOM query finds the sub-element) and
removed `duration` ms after that.  Returns (start, clear) times in ms
relative to request handling, or `none` when nothing is scheduled. -/
def highlightSchedule (items : List Item) (req : FocusBody) (domHasSubElement : Bool) :
    Option (ℚ × ℚ) :=
  match findItemById items (appTargetId req) with
  | none => none
  | some _ =>
    if jsTruthyStr req.subElement then
      if domHasSubElement then
        let duration := jsOrNum ((req.focusOptions).bind FocusOptionsIn.duration) 3000
        some (100, 100 + duration)
      else none
    else none

/-! ### Item creation position logic -/

/-- Position logic of `POST /api/todos` (and the other task-zone endpoints):
use the body's x and y verbatim when both are present, otherwise call the
zone allocator.  The boolean records whether the allocator was invoked. -/
def todoPosition (bodyX bodyY : Option ℚ) (existingItems : List Item) : (ℚ × ℚ) × Bool :=
  match bodyX, bodyY with
  | some a, some b => ((a, b), false)
  | _, _ => (findTaskZonePosition tempTodoItem existingItems, true)

/-- The x/y stored by `POST /api/board-items`:
`x: x || Math.random() * 8000 + 100` — the random draw is passed in as
`randX`/`randY` so the function stays pure. -/
def boardItemStoredXY (bodyX bodyY : Option ℚ) (randX randY : ℚ) : ℚ × ℚ :=
  (jsOrNum bodyX randX, jsOrNum bodyY randY)

/-! ### DELETE /api/task-zone and PUT /api/board-items/:id -/

/-- `DELETE /api/task-zone`: keep the items that are not (in the zone and of
a grid-managed type); report how many were removed. -/
def deleteTaskZone (items : List Item) : List Item × ℕ :=
  let filteredItems := items.filter (fun item => !(inTaskZoneRect item && isApiItemType item.type))
  (filteredItems, items.length - filteredItems.length)

/-- Claim-side removal predicate: a grid-managed type whose stored position
falls inside the task zone rectangle. -/
def taskZoneRemovable (item : Item) : Bool :=
  isApiItemType item.type && inTaskZoneRect item

/-- An update body for `PUT /api/board-items/:id` (a representative set of
the mutable item fields; absent fields are not merged). -/
structure ItemUpdate where
  type : Option String
  x : Option ℚ
  y : Option ℚ
  width : Option ℚ
  height : Option ℚ
  content : Option String
  color : Option String
  rotation : Option ℚ
  deriving Repr, DecidableEq

/-- JS shallow merge `{...item, ...updates, updatedAt: now}`. -/
def applyUpdate (item : Item) (updates : ItemUpdate) (now : ℚ) : Item :=
  { id := item.id,
    type := updates.type.getD item.type,
    x := updates.x.getD item.x,
    y := updates.y.getD item.y,
    width := updates.width.getD item.width,
    height := updates.height.getD item.height,
    content := updates.content.getD item.content,
    color := updates.color.getD item.color,
    rotation := updates.rotation.getD item.rotation,
    createdAt := item.createdAt,
    updatedAt := now }

/-- `PUT /api/board-items/:id`: 404 when the id is absent (store untouched),
otherwise replace the found item with the shallow merge and echo it. -/
def putBoardItem (items : List Item) (id : String) (updates : ItemUpdate) (now : ℚ) :
    ℕ × List Item × Option Item :=
  match items.findIdx? (fun item => item.id == id) with
  | none => (404, items, none)
  | some itemIndex =>
    let updated := applyUpdate (items.getD itemIndex itemDefault) updates now
    (200, items.set itemIndex updated, some updated)

/-! ### Concrete scenario data used by witnesses and counterexamples -/

/-- The item used in concrete camera scenarios. -/
def cItem : Item :=
  { itemDefault with id := "a", x := 100, y := 100, width := 200, height := 200 }

/-- A focus request naming an id that is not in the collection. -/
def c7Req : FocusBody :=
  { objectId := some "zzz", itemId := none, subElement := none, focusOptions := none }

/-- A focus request resolving to `cItem` with a sub-element. -/
def c8Req : FocusBody :=
  { objectId := some "a", itemId := none, subElement := some "task-1", focusOptions := none }

/-- A body with no usable identifier (objectId present but empty). -/
def c6BodyEmpty : FocusBody :=
  { objectId := some "", itemId := none, subElement := none, focusOptions := none }

/-- A body whose `itemId` is empty and whose `objectId` carries the id. -/
def c6BodyGood : FocusBody :=
  { objectId := some "obj-1", itemId := some "", subElement := none, focusOptions := none }

/-- A decoration item inside the task-zone rectangle but not grid-managed. -/
def c9ItemDecoration : Item :=
  { itemDefault with id := "d", type := "ehr", x := 4300, y := 100 }

/-- A second concrete item for the C10 witness. -/
def c10ItemB : Item :=
  { itemDefault with id := "b", type := "todo", x := 1, y := 2, width := 3, height := 4 }

/-- An update body setting only x and the color. -/
def c10Update : ItemUpdate :=
  { type := none, x := some 42, y := none, width := none, height := none,
    content := none, color := some "#000000", rotation := none }

/-! ### Allocator helper lemmas -/

theorem filterPred_projP {i i' : Item} (h : projP i = projP i') :
    (inTaskZoneRect i && isApiItemType i.type) = (inTaskZoneRect i' && isApiItemType i'.type) := by
  simp only [projP, Prod.mk.injEq] at h
  obtain ⟨hx, hy, ht⟩ := h
  simp [inTaskZoneRect, hx, hy, ht]

theorem taskZoneFilter_map_projP : ∀ {l l' : List Item}, l.map projP = l'.map projP →
    (taskZoneFilter l).map projP = (taskZoneFilter l').map projP := by
  intro l
  induction l with
  | nil =>
    intro l' h
    rw [List.map_nil, eq_comm, List.map_eq_nil_iff] at h
    simp [h]
  | cons a t ih =>
    intro l' h
    cases l' with
    | nil => simp at h
    | cons a' t' =>
      simp only [List.map_cons, List.cons.injEq] at h
      obtain ⟨ha, ht⟩ := h
      simp only [taskZoneFilter, List.filter_cons]
      rw [filterPred_projP ha]
      have ihh := ih ht
      simp only [taskZoneFilter] at ihh
      cases hpred : (inTaskZoneRect a' && isApiItemType a'.type) with
      | false => exact ihh
      | true => simpa [ha] using ihh

theorem markItem_projP {i i' : Item} (g : List (List Bool)) (h : projP i = projP i') :
    markItem g i = markItem g i' := by
  simp only [projP, Prod.mk.injEq] at h
  obtain ⟨hx, hy, _⟩ := h
  simp [markItem, hx, hy]

theorem foldl_markItem_projP : ∀ {l l' : List Item}, l.map projP = l'.map projP →
    ∀ g, l.foldl markItem g = l'.foldl markItem g := by
  intro l
  induction l with
  | nil =>
    intro l' h g
    rw [List.map_nil, eq_comm, List.map_eq_nil_iff] at h
    simp [h]
  | cons a t ih =>
    intro l' h g
    cases l' with
    | nil => simp at h
    | cons a' t' =>
      simp only [List.map_cons, List.cons.injEq] at h
      obtain ⟨ha, ht⟩ := h
      simp only [List.foldl_cons]
      rw [markItem_projP g ha]
      exact ih ht _

theorem length_of_map_projP {l l' : List Item} (h : l.map projP = l'.map projP) :
    l.length = l'.length := by
  have := congrArg List.length h
  simpa using this

theorem taskZoneCompute_projP {t t' : List Item} (h : t.map projP = t'.map projP) :
    taskZoneCompute t = taskZoneCompute t' := by
  simp only [taskZoneCompute]
  rw [foldl_markItem_projP h initialGrid, length_of_map_projP h]

theorem findTaskZonePosition_projP {c c' : Item} {l l' : List Item}
    (h : l.map projP = l'.map projP) :
    findTaskZonePosition c l = findTaskZonePosition c' l' :=
  taskZoneCompute_projP (taskZoneFilter_map_projP h)

theorem createSeq_filter_projP (base : List Item) (spec : ℕ → String × ℚ × ℚ)
    (hbase : taskZoneFilter base = []) :
    ∀ n, (∀ k, k < n → isApiItemType (spec k).1 = true) →
      (taskZoneFilter (createSeqFrom base spec n)).map projP =
      (taskZoneFilter (createSeqFrom [] spec0 n)).map projP := by
  intro n
  induction n with
  | zero =>
    intro _
    show (taskZoneFilter base).map projP = (taskZoneFilter []).map projP
    rw [hbase]
    rfl
  | succ n ih =>
    intro hspec
    have ihn := ih (fun k hk => hspec k (Nat.lt_succ_of_lt hk))
    have hpos : findTaskZonePosition tempTodoItem (createSeqFrom base spec n) =
        findTaskZonePosition tempTodoItem (createSeqFrom [] spec0 n) :=
      taskZoneCompute_projP ihn
    simp only [createSeqFrom, taskZoneFilter, List.filter_append, List.map_append]
    have hitem : projP (mkCreatedItem spec n
          (findTaskZonePosition tempTodoItem (createSeqFrom base spec n))) =
        projP (mkCreatedItem spec0 n
          (findTaskZonePosition tempTodoItem (createSeqFrom [] spec0 n))) := by
      have htype := hspec n (Nat.lt_succ_self n)
      simp only [projP, mkCreatedItem, Prod.mk.injEq]
      refine ⟨by rw [hpos], by rw [hpos], ?_⟩
      rw [htype]
      rfl
    have hsingle := @taskZoneFilter_map_projP
      [mkCreatedItem spec n (findTaskZonePosition tempTodoItem (createSeqFrom base spec n))]
      [mkCreatedItem spec0 n (findTaskZonePosition tempTodoItem (createSeqFrom [] spec0 n))]
      (by simpa using hitem)
    simp only [taskZoneFilter] at ihn hsingle
    rw [ihn, hsingle]

theorem canonicalAllocPos : ∀ n, n < maxRows * maxCols →
    findTaskZonePosition tempTodoItem (createSeqFrom [] spec0 n) =
    gridCellXY (n / maxCols) (n % maxCols) := by decide

theorem allocPos_eq_gridCell (base : List Item) (spec : ℕ → String × ℚ × ℚ) (n : ℕ)
    (hbase : taskZoneFilter base = [])
    (hspec : ∀ k, k < n → isApiItemType (spec k).1 = true)
    (hn : n < maxRows * maxCols) :
    findTaskZonePosition tempTodoItem (createSeqFrom base spec n) =
    gridCellXY (n / maxCols) (n % maxCols) := by
  have h := createSeq_filter_projP base spec hbase n hspec
  have heq : findTaskZonePosition tempTodoItem (createSeqFrom base spec n) =
      findTaskZonePosition tempTodoItem (createSeqFrom [] spec0 n) :=
    taskZoneCompute_projP h
  rw [heq]
  exact canonicalAllocPos n hn

/-! ### C2: deterministic row-major fill order -/

/-- C2: starting from a store whose task-zone filter is empty, successive
grid-managed creations with no explicit coordinates fill the grid cells in
row-major order: the n-th allocation (n < maxRows·maxCols) returns the cell
(row n / maxCols, col n % maxCols), i.e. x = zone.x + col·columnWidth +
padding and y = zone.y + row·rowHeight + padding.  In particular the first
three allocations return (4260, 60), (4820, 60), (5380, 60) and the fourth
returns (4260, 550) — see the witness. -/
theorem c2_fill_order (base : List Item) (spec : ℕ → String × ℚ × ℚ) (n : ℕ)
    (hbase : taskZoneFilter base = [])
    (hspec : ∀ k, k < n → isApiItemType (spec k).1 = true)
    (hn : n < maxRows * maxCols) :
    findTaskZonePosition tempTodoItem (createSeqFrom base spec n) =
    gridCellXY (n / maxCols) (n % maxCols) :=
  allocPos_eq_gridCell base spec n hbase hspec hn

/-- Witness for C2 at the concrete scenario of the spec: an empty store and
four successive creations give (4260, 60), (4820, 60), (5380, 60), (4260, 550). -/
theorem c2_fill_order_witness :
    findTaskZonePosition tempTodoItem (createSeqFrom [] spec0 0) = (4260, 60) ∧
    findTaskZonePosition tempTodoItem (createSeqFrom [] spec0 1) = (4820, 60) ∧
    findTaskZonePosition tempTodoItem (createSeqFrom [] spec0 2) = (5380, 60) ∧
    findTaskZonePosition tempTodoItem (createSeqFrom [] spec0 3) = (4260, 550) := by
  refine ⟨?_, ?_, ?_, ?_⟩ <;>
    exact (c2_fill_order [] spec0 _ (by decide) (fun k _ => rfl) (by decide)).trans
      (by decide)

/-! ### C3: overflow fallback -/

theorem firstFreeCell_eq_none_of_all_true :
    ∀ (g : List (List Bool)), (∀ row ∈ g, ∀ b ∈ row, b = true) → firstFreeCell g = none := by
  intro g
  induction g with
  | nil => intro _; rfl
  | cons row rest ih =>
    intro h
    have hrow : row.findIdx? (fun b => b == false) = none := by
      rw [List.findIdx?_eq_none_iff]
      intro x hx
      have := h row (by simp) x hx
      simp [this]
    have hrest := ih (fun r hr => h r (by simp [hr]))
    show (match row.findIdx? (fun b => b == false) with
      | some c => some (0, c)
      | none => (firstFreeCell rest).map (fun rc => (rc.1 + 1, rc.2))) = none
    rw [hrow, hrest]
    rfl

/-- C3: the allocator is total (it always returns a position), and whenever
every cell of the maxRows × maxCols occupancy grid built from the filtered
items is marked occupied, it returns the vertical-stack fallback
x = zone.x + padding, y = zone.y + padding + count(filtered)·(rowHeight +
padding) — a position that may lie below the zone's nominal bottom edge
(see the witness). -/
theorem c3_overflow_fallback (cand : Item) (items : List Item)
    (hfull : ∀ row ∈ gridOf items, ∀ b ∈ row, b = true) :
    findTaskZonePosition cand items =
      (TASK_ZONE.x + taskPadding,
       TASK_ZONE.y + taskPadding +
         ((taskZoneFilter items).length : ℚ) * (taskRowHeight + taskPadding)) := by
  have hnone : firstFreeCell ((taskZoneFilter items).foldl markItem initialGrid) = none :=
    firstFreeCell_eq_none_of_all_true _ hfull
  simp only [findTaskZonePosition, taskZoneCompute, hnone]
  norm_num [taskPadding]

/-- Witness for C3: with the grid's twelve cells all occupied, the next
allocation returns (4260, 6660), below the zone's bottom edge 2100. -/
theorem c3_overflow_fallback_witness :
    (∀ row ∈ gridOf (createSeqFrom [] spec0 12), ∀ b ∈ row, b = true) ∧
    findTaskZonePosition tempTodoItem (createSeqFrom [] spec0 12) = (4260, 6660) ∧
    TASK_ZONE.y + TASK_ZONE.height < 6660 := by
  refine ⟨by decide, ?_, by decide⟩
  exact (c3_overflow_fallback tempTodoItem (createSeqFrom [] spec0 12) (by decide)).trans
    (by decide)

/-! ### C4: no overlap inside the grid -/

theorem createSeq_eq_map_range (spec : ℕ → String × ℚ × ℚ) :
    ∀ N, createSeqFrom [] spec N = (List.range N).map
      (fun k => mkCreatedItem spec k
        (findTaskZonePosition tempTodoItem (createSeqFrom [] spec k))) := by
  intro N
  induction N with
  | zero => rfl
  | succ n ih =>
    show createSeqFrom [] spec n ++
      [mkCreatedItem spec n (findTaskZonePosition tempTodoItem (createSeqFrom [] spec n))] = _
    rw [List.range_succ, List.map_append, ← ih]
    rfl

theorem checkCollision_eq_false_iff (a b : Item) :
    checkCollision a b = false ↔
      (a.x + a.width ≤ b.x ∨ b.x + b.width ≤ a.x ∨
       a.y + a.height ≤ b.y ∨ b.y + b.height ≤ a.y) := by
  simp only [checkCollision, Bool.not_eq_false', Bool.or_eq_true, decide_eq_true_eq, or_assoc]

theorem maxCols_eq : maxCols = 3 := by decide

theorem maxRows_eq : maxRows = 4 := by decide

theorem cells_separated (r1 c1 r2 c2 : ℕ) (hne : ¬(r1 = r2 ∧ c1 = c2))
    (w1 h1 w2 h2 : ℚ) (hw1 : w1 ≤ taskColWidth) (hh1 : h1 ≤ taskRowHeight)
    (hw2 : w2 ≤ taskColWidth) (hh2 : h2 ≤ taskRowHeight) :
    (gridCellXY r1 c1).1 + w1 ≤ (gridCellXY r2 c2).1 ∨
    (gridCellXY r2 c2).1 + w2 ≤ (gridCellXY r1 c1).1 ∨
    (gridCellXY r1 c1).2 + h1 ≤ (gridCellXY r2 c2).2 ∨
    (gridCellXY r2 c2).2 + h2 ≤ (gridCellXY r1 c1).2 := by
  simp only [gridCellXY, taskColWidth, taskRowHeight, taskPadding, TASK_ZONE] at *
  rcases Nat.lt_trichotomy c1 c2 with hc | hc | hc
  · left
    have hcast : (c1 : ℚ) + 1 ≤ (c2 : ℚ) := by exact_mod_cast hc
    nlinarith
  · rcases Nat.lt_trichotomy r1 r2 with hr | hr | hr
    · right; right; left
      have hcast : (r1 : ℚ) + 1 ≤ (r2 : ℚ) := by exact_mod_cast hr
      nlinarith
    · exact absurd ⟨hr, hc⟩ hne
    · right; right; right
      have hcast : (r2 : ℚ) + 1 ≤ (r1 : ℚ) := by exact_mod_cast hr
      nlinarith
  · right; left
    have hcast : (c2 : ℚ) + 1 ≤ (c1 : ℚ) := by exact_mod_cast hc
    nlinarith

/-- C4: any sequence of at most maxRows·maxCols grid-managed creations with
no explicit coordinates, in which every created item's declared width is at
most the column width and its height at most the row height, yields pairwise
non-overlapping rectangles (in the sense of the server's `checkCollision`). -/
theorem c4_no_overlap (spec : ℕ → String × ℚ × ℚ) (N : ℕ)
    (hN : N ≤ maxRows * maxCols)
    (hspec : ∀ k, k < N → isApiItemType (spec k).1 = true ∧
      (spec k).2.1 ≤ taskColWidth ∧ (spec k).2.2 ≤ taskRowHeight) :
    (createSeqFrom [] spec N).Pairwise (fun a b => checkCollision a b = false) := by
  rw [createSeq_eq_map_range, List.pairwise_map, List.pairwise_iff_getElem]
  intro i j hi hj hij
  simp only [List.length_range] at hi hj
  simp only [List.getElem_range]
  have hposi : findTaskZonePosition tempTodoItem (createSeqFrom [] spec i) =
      gridCellXY (i / maxCols) (i % maxCols) :=
    allocPos_eq_gridCell [] spec i rfl
      (fun k hk => (hspec k (hk.trans hi)).1)
      (lt_of_lt_of_le hi hN)
  have hposj : findTaskZonePosition tempTodoItem (createSeqFrom [] spec j) =
      gridCellXY (j / maxCols) (j % maxCols) :=
    allocPos_eq_gridCell [] spec j rfl
      (fun k hk => (hspec k (hk.trans hj)).1)
      (lt_of_lt_of_le hj hN)
  rw [checkCollision_eq_false_iff]
  simp only [mkCreatedItem, hposi, hposj]
  have hcell : ¬(i / maxCols = j / maxCols ∧ i % maxCols = j % maxCols) := by
    rintro ⟨hdiv, hmod⟩
    have h1 := Nat.div_add_mod i maxCols
    have h2 := Nat.div_add_mod j maxCols
    rw [maxCols_eq] at h1 h2 hdiv hmod
    omega
  exact cells_separated (i / maxCols) (i % maxCols) (j / maxCols) (j % maxCols) hcell
    _ _ _ _ (hspec i hi).2.1 (hspec i hi).2.2
    (hspec j hj).2.1 (hspec j hj).2.2

/-- Witness for C4: twelve canonical todo creations are pairwise
non-overlapping. -/
theorem c4_no_overlap_witness :
    (createSeqFrom [] spec0 12).Pairwise (fun a b => checkCollision a b = false) :=
  c4_no_overlap spec0 12 (by decide)
    (fun k _ => ⟨rfl, by show (420 : ℚ) ≤ taskColWidth; decide,
      by show (400 : ℚ) ≤ taskRowHeight; decide⟩)

/-! ### C1: camera phase boundaries -/

theorem easeInOut_one : easeInOut 1 = 1 := by
  norm_num [easeInOut]

theorem clampZoom_pos (z : ℚ) : 0 < clampZoom z :=
  lt_of_lt_of_le (by norm_num) (le_max_left _ _)

theorem centerOnItemFrame_phase1_end
    (W H : ℚ) (items : List Item) (start : Viewport) (itemId : String)
    (finalZoom D : ℚ) (item : Item)
    (hfind : items.find? (fun i => i.id == itemId) = some item)
    (hD : 0 < D) :
    centerOnItemFrame W H items start itemId finalZoom D (D / 3) =
      { x := W / 2 - (W / 2 - start.x) / start.zoom * clampZoom (start.zoom * 0.3),
        y := H / 2 - (H / 2 - start.y) / start.zoom * clampZoom (start.zoom * 0.3),
        zoom := clampZoom (start.zoom * 0.3) } := by
  have h3 : D / 3 ≠ 0 := by positivity
  simp only [centerOnItemFrame, hfind]
  rw [if_pos (le_refl (D / 3)), div_self h3, easeInOut_one]
  refine Viewport.mk.injEq .. |>.mpr ⟨by ring, by ring, by ring⟩

theorem centerOnItemFrame_phase2_end
    (W H : ℚ) (items : List Item) (start : Viewport) (itemId : String)
    (finalZoom D : ℚ) (item : Item)
    (hfind : items.find? (fun i => i.id == itemId) = some item)
    (hD : 0 < D) :
    centerOnItemFrame W H items start itemId finalZoom D (2 * D / 3) =
      { x := W / 2 - (item.x + item.width / 2) * clampZoom (start.zoom * 0.3),
        y := H / 2 - (item.y + item.height / 2) * clampZoom (start.zoom * 0.3),
        zoom := clampZoom (start.zoom * 0.3) } := by
  have h3 : D / 3 ≠ 0 := by positivity
  have hc1 : ¬(2 * D / 3 ≤ D / 3) := by intro h; linarith
  have hc2 : 2 * D / 3 ≤ D / 3 * 2 := le_of_eq (by ring)
  simp only [centerOnItemFrame, hfind]
  rw [if_neg hc1, if_pos hc2]
  rw [show 2 * D / 3 - D / 3 = D / 3 by ring, show D / 3 * 2 - D / 3 = D / 3 by ring,
    div_self h3, easeInOut_one]
  refine Viewport.mk.injEq .. |>.mpr ⟨by ring, by ring, rfl⟩

theorem centerOnItemFrame_phase3_end
    (W H : ℚ) (items : List Item) (start : Viewport) (itemId : String)
    (finalZoom D : ℚ) (item : Item)
    (hfind : items.find? (fun i => i.id == itemId) = some item)
    (hD : 0 < D) :
    centerOnItemFrame W H items start itemId finalZoom D D =
      { x := W / 2 - (item.x + item.width / 2) * finalZoom,
        y := H / 2 - (item.y + item.height / 2) * finalZoom,
        zoom := finalZoom } := by
  have h3 : D - D / 3 * 2 ≠ 0 := by
    intro h
    have : D = 0 := by linarith
    exact absurd this (ne_of_gt hD)
  have hc1 : ¬(D ≤ D / 3) := by intro h; linarith
  have hc2 : ¬(D ≤ D / 3 * 2) := by intro h; linarith
  simp only [centerOnItemFrame, hfind]
  rw [if_neg hc1, if_neg hc2, div_self h3, easeInOut_one]
  refine Viewport.mk.injEq .. |>.mpr ⟨by ring, by ring, by ring⟩

/-- C1 (amended): for a `centerOnItem` call resolving to `item`, with
positive duration D: at elapsed D/3 the zoom equals
clamp(0.3·startZoom) into [0.1, 3] and the world point at the screen center
equals the pre-call screen-center world point; at elapsed 2·D/3 the item's
world center is at the screen center; at elapsed D the zoom equals
`finalZoom` exactly as passed (the code never clamps it — see the
counterexample) and, whenever finalZoom ≠ 0, the item's world center is at
the screen center. -/
theorem c1_camera_phase_boundaries
    (W H : ℚ) (items : List Item) (start : Viewport) (itemId : String)
    (finalZoom D : ℚ) (item : Item)
    (hfind : items.find? (fun i => i.id == itemId) = some item)
    (hD : 0 < D) :
    ((centerOnItemFrame W H items start itemId finalZoom D (D / 3)).zoom
        = clampZoom (0.3 * start.zoom) ∧
      worldAtScreenCenter W H (centerOnItemFrame W H items start itemId finalZoom D (D / 3))
        = worldAtScreenCenter W H start) ∧
    worldAtScreenCenter W H (centerOnItemFrame W H items start itemId finalZoom D (2 * D / 3))
      = (item.x + item.width / 2, item.y + item.height / 2) ∧
    (centerOnItemFrame W H items start itemId finalZoom D D).zoom = finalZoom ∧
    (finalZoom ≠ 0 →
      worldAtScreenCenter W H (centerOnItemFrame W H items start itemId finalZoom D D)
        = (item.x + item.width / 2, item.y + item.height / 2)) := by
  have hzo : clampZoom (start.zoom * 0.3) ≠ 0 := ne_of_gt (clampZoom_pos _)
  refine ⟨⟨?_, ?_⟩, ?_, ?_, ?_⟩
  · rw [centerOnItemFrame_phase1_end W H items start itemId finalZoom D item hfind hD]
    show clampZoom (start.zoom * 0.3) = clampZoom (0.3 * start.zoom)
    rw [mul_comm]
  · rw [centerOnItemFrame_phase1_end W H items start itemId finalZoom D item hfind hD]
    simp only [worldAtScreenCenter]
    refine Prod.ext ?_ ?_ <;>
      · show (_ - (_ - _ / _ * _)) / _ = _
        rw [sub_sub_cancel, mul_div_cancel_right₀ _ hzo]
  · rw [centerOnItemFrame_phase2_end W H items start itemId finalZoom D item hfind hD]
    simp only [worldAtScreenCenter]
    refine Prod.ext ?_ ?_ <;>
      · show (_ - (_ - _ * _)) / _ = _
        rw [sub_sub_cancel, mul_div_cancel_right₀ _ hzo]
  · rw [centerOnItemFrame_phase3_end W H items start itemId finalZoom D item hfind hD]
  · intro hfz
    rw [centerOnItemFrame_phase3_end W H items start itemId finalZoom D item hfind hD]
    simp only [worldAtScreenCenter]
    refine Prod.ext ?_ ?_ <;>
      · show (_ - (_ - _ * _)) / _ = _
        rw [sub_sub_cancel, mul_div_cancel_right₀ _ hfz]

/-- Counterexample to C1 as stated: with finalZoom = 5 the zoom reached at
elapsed = duration is 5, not the clamp of 5 into [0.1, 3] (which is 3): the
code never clamps `finalZoom`. -/
theorem c1_counterexample :
    (centerOnItemFrame 800 600 [cItem] { x := 0, y := 0, zoom := 1 } "a" 5 3000 3000).zoom = 5 ∧
    clampZoom 5 = 3 ∧
    (centerOnItemFrame 800 600 [cItem] { x := 0, y := 0, zoom := 1 } "a" 5 3000 3000).zoom ≠
      clampZoom 5 := by
  refine ⟨by decide, by decide, by decide⟩

/-- Witness for C1 (amended) at a concrete call. -/
theorem c1_camera_phase_boundaries_witness :
    ((centerOnItemFrame 800 600 [cItem] { x := 0, y := 0, zoom := 1 } "a" 0.8 3000 1000).zoom
        = clampZoom (0.3 * 1) ∧
      worldAtScreenCenter 800 600
          (centerOnItemFrame 800 600 [cItem] { x := 0, y := 0, zoom := 1 } "a" 0.8 3000 1000)
        = worldAtScreenCenter 800 600 { x := 0, y := 0, zoom := 1 }) ∧
    worldAtScreenCenter 800 600
        (centerOnItemFrame 800 600 [cItem] { x := 0, y := 0, zoom := 1 } "a" 0.8 3000 2000)
      = (cItem.x + cItem.width / 2, cItem.y + cItem.height / 2) ∧
    (centerOnItemFrame 800 600 [cItem] { x := 0, y := 0, zoom := 1 } "a" 0.8 3000 3000).zoom
      = 0.8 ∧
    ((0.8 : ℚ) ≠ 0 →
      worldAtScreenCenter 800 600
          (centerOnItemFrame 800 600 [cItem] { x := 0, y := 0, zoom := 1 } "a" 0.8 3000 3000)
        = (cItem.x + cItem.width / 2, cItem.y + cItem.height / 2)) := by
  have h := c1_camera_phase_boundaries 800 600 [cItem] { x := 0, y := 0, zoom := 1 } "a"
    0.8 3000 cItem (by decide) (by decide)
  rw [show (1000 : ℚ) = 3000 / 3 by decide, show (2000 : ℚ) = 2 * 3000 / 3 by decide]
  exact h

/-! ### C7: focus on a missing item is a no-op -/

/-- C7: a focus or centerOnItem request whose target id does not occur in the
current item collection leaves the viewport completely unchanged at every
elapsed time — `centerOnItem` returns before touching the viewport, and the
client focus handler only logs the miss.  Both modelled functions are total,
reflecting that no exception is thrown. -/
theorem c7_missing_item_noop
    (W H : ℚ) (items : List Item) (vp : Viewport) (req : FocusBody)
    (tid : String) (finalZoom D e e2 : ℚ)
    (hmiss : items.find? (fun i => i.id == tid) = none)
    (hreqmiss : findItemById items (appTargetId req) = none) :
    centerOnItemFrame W H items vp tid finalZoom D e = vp ∧
    handleFocusViewport W H items vp req e2 = vp := by
  constructor
  · simp [centerOnItemFrame, hmiss]
  · cases htid : appTargetId req with
    | none => simp [handleFocusViewport, htid]
    | some t =>
      simp only [findItemById, htid] at hreqmiss
      simp [handleFocusViewport, htid, hreqmiss]

/-- Witness for C7 at a concrete missing id. -/
theorem c7_missing_item_noop_witness :
    centerOnItemFrame 800 600 [cItem] { x := 0, y := 0, zoom := 1 } "zzz" 0.8 3000 1500 =
      { x := 0, y := 0, zoom := 1 } ∧
    handleFocusViewport 800 600 [cItem] { x := 0, y := 0, zoom := 1 } c7Req 1500 =
      { x := 0, y := 0, zoom := 1 } :=
  c7_missing_item_noop 800 600 [cItem] { x := 0, y := 0, zoom := 1 } c7Req "zzz" 0.8 3000
    1500 1500 (by decide) (by decide)

/-! ### C8: sub-element highlight timing -/

/-- C8 (code evaluated at the failing input): for a focus request that
resolves to an existing item, carries a sub-element present in the DOM, and
uses the default 3000 ms animation duration, the highlight is scheduled to
begin 100 ms after handling — long before the animation finishes — and to
clear 3000 ms (the animation duration, not a fixed display constant) later.
This contradicts the claim, and also the repository's own CHANGES_SUMMARY.md,
which documents the highlight as beginning only after `duration` ms. -/
theorem c8_highlight_schedule_bug :
    highlightSchedule [cItem] c8Req true = some (100, 100 + 3000) ∧ (100 : ℚ) < 3000 :=
  ⟨by decide, by decide⟩

/-! ### C6: POST /api/focus validation and broadcast -/

/-- C6: the focus endpoint responds 400 exactly when neither `itemId` nor
`objectId` carries a non-empty identifier; when a non-empty identifier is
present, it responds 200 (success, echoing the normalized id) and broadcasts
exactly one event carrying the normalized identifier under both the legacy
`objectId` and the current `itemId` field names. -/
theorem c6_focus_endpoint (body : FocusBody) :
    ((postFocus body).status = 400 ↔
      (jsTruthyStr body.itemId = false ∧ jsTruthyStr body.objectId = false)) ∧
    (∀ t, normalizedId body = some t →
      (postFocus body).status = 200 ∧
      (postFocus body).success = true ∧
      (postFocus body).itemId = some t ∧
      (postFocus body).events.length = 1 ∧
      ∀ ev ∈ (postFocus body).events, ev.objectId = t ∧ ev.itemId = t) := by
  obtain ⟨ob, it, sub, fo⟩ := body
  constructor
  · cases it with
    | none =>
      cases ob with
      | none => simp [postFocus, jsOrStr, jsTruthyStr, focusBadRequest]
      | some s =>
        by_cases hs : s = "" <;>
          simp [postFocus, jsOrStr, jsTruthyStr, focusBadRequest, hs]
    | some s =>
      cases ob with
      | none =>
        by_cases hs : s = "" <;>
          simp [postFocus, jsOrStr, jsTruthyStr, focusBadRequest, hs]
      | some s' =>
        by_cases hs : s = "" <;> by_cases hs' : s' = "" <;>
          simp [postFocus, jsOrStr, jsTruthyStr, focusBadRequest, hs, hs']
  · intro t ht
    cases it with
    | none =>
      cases ob with
      | none => simp [normalizedId, jsTruthyStr] at ht
      | some s =>
        by_cases hs : s = ""
        · simp [normalizedId, jsTruthyStr, hs] at ht
        · have hst : s = t := by simpa [normalizedId, jsTruthyStr, hs] using ht
          cases hst
          simp [postFocus, jsOrStr, jsTruthyStr, hs]
    | some s =>
      cases ob with
      | none =>
        by_cases hs : s = ""
        · simp [normalizedId, jsTruthyStr, hs] at ht
        · have hst : s = t := by simpa [normalizedId, jsTruthyStr, hs] using ht
          cases hst
          simp [postFocus, jsOrStr, jsTruthyStr, hs]
      | some s' =>
        by_cases hs : s = ""
        · by_cases hs' : s' = ""
          · simp [normalizedId, jsTruthyStr, hs, hs'] at ht
          · have hst : s' = t := by simpa [normalizedId, jsTruthyStr, hs, hs'] using ht
            cases hst
            simp [postFocus, jsOrStr, jsTruthyStr, hs, hs']
        · have hst : s = t := by simpa [normalizedId, jsTruthyStr, hs] using ht
          cases hst
          simp [postFocus, jsOrStr, jsTruthyStr, hs]

/-- Witness for C6: a body with only an empty identifier is rejected with
400, and a body carrying a non-empty `objectId` gets a 200 acknowledgement
and exactly one broadcast event with the id under both names. -/
theorem c6_focus_endpoint_witness :
    (postFocus c6BodyEmpty).status = 400 ∧
    ((postFocus c6BodyGood).status = 200 ∧
      (postFocus c6BodyGood).success = true ∧
      (postFocus c6BodyGood).itemId = some "obj-1" ∧
      (postFocus c6BodyGood).events.length = 1 ∧
      ∀ ev ∈ (postFocus c6BodyGood).events, ev.objectId = "obj-1" ∧ ev.itemId = "obj-1") :=
  ⟨(c6_focus_endpoint c6BodyEmpty).1.mpr (by decide),
   (c6_focus_endpoint c6BodyGood).2 "obj-1" (by decide)⟩

/-! ### C5: explicit coordinates at creation -/

/-- C5 (amended): the todo/agent/lab-result/enhanced-todo creation endpoints
store a supplied x/y pair verbatim and then never invoke the zone allocator;
the allocator runs exactly when the pair is not fully supplied.  For
`POST /api/board-items` — which never invokes the zone allocator — a supplied
coordinate is kept only when it is non-zero (JS `x || random` treats the
explicit 0 as absent: see the counterexample). -/
theorem c5_explicit_xy (a b randX randY : ℚ) (existing : List Item)
    (bodyX bodyY : Option ℚ) :
    todoPosition (some a) (some b) existing = ((a, b), false) ∧
    (todoPosition bodyX bodyY existing).2 = !(bodyX.isSome && bodyY.isSome) ∧
    (a ≠ 0 → b ≠ 0 → boardItemStoredXY (some a) (some b) randX randY = (a, b)) := by
  refine ⟨rfl, ?_, ?_⟩
  · cases bodyX <;> cases bodyY <;> rfl
  · intro ha hb
    simp [boardItemStoredXY, jsOrNum, ha, hb]

/-- Counterexample to C5 as stated: `POST /api/board-items` with the explicit
coordinates x = 0, y = 0 (and the endpoint's random draw at (4321, 5678))
stores (4321, 5678), not the supplied values. -/
theorem c5_counterexample :
    boardItemStoredXY (some 0) (some 0) 4321 5678 = (4321, 5678) ∧
    ((4321 : ℚ), (5678 : ℚ)) ≠ ((0 : ℚ), (0 : ℚ)) :=
  ⟨by decide, by decide⟩

/-- Witness for C5 (amended) at concrete inputs. -/
theorem c5_explicit_xy_witness :
    todoPosition (some 7) (some 9) [] = ((7, 9), false) ∧
    (todoPosition none (some 9) []).2 = !((none : Option ℚ).isSome && (some (9 : ℚ)).isSome) ∧
    boardItemStoredXY (some 7) (some 9) 4321 5678 = (7, 9) := by
  have h := c5_explicit_xy 7 9 4321 5678 [] none (some 9)
  exact ⟨h.1, h.2.1, h.2.2 (by decide) (by decide)⟩

/-! ### C9: DELETE /api/task-zone frame effect -/

theorem length_filter_not_add (l : List Item) (p : Item → Bool) :
    (l.filter p).length + (l.filter (fun i => !(p i))).length = l.length := by
  induction l with
  | nil => rfl
  | cons a t ih =>
    cases hpa : p a <;> simp [List.filter_cons, hpa, ← ih] <;> omega

/-- C9: the task-zone DELETE removes exactly the items that are both of a
grid-managed type and positioned inside the task zone rectangle; the
remaining store is the order-preserving sublist of all other items, each
unchanged, and the response reports the number removed. -/
theorem c9_delete_task_zone (items : List Item) :
    (deleteTaskZone items).1 = items.filter (fun i => !taskZoneRemovable i) ∧
    List.Sublist (deleteTaskZone items).1 items ∧
    (deleteTaskZone items).2 = (items.filter (fun i => taskZoneRemovable i)).length ∧
    ∀ i ∈ items, (i ∈ (deleteTaskZone items).1 ↔ taskZoneRemovable i = false) := by
  have hcongr : items.filter (fun item => !(inTaskZoneRect item && isApiItemType item.type))
      = items.filter (fun i => !taskZoneRemovable i) :=
    List.filter_congr (fun x _ => by simp [taskZoneRemovable, Bool.and_comm])
  have hlen := length_filter_not_add items taskZoneRemovable
  refine ⟨hcongr, ?_, ?_, ?_⟩
  · exact List.filter_sublist _
  · show items.length -
      (items.filter (fun item => !(inTaskZoneRect item && isApiItemType item.type))).length = _
    rw [hcongr, ← hlen, Nat.add_sub_cancel]
  · intro i hi
    show i ∈ items.filter (fun item => !(inTaskZoneRect item && isApiItemType item.type)) ↔ _
    rw [hcongr]
    simp [List.mem_filter, hi]

/-- Witness for C9 on a concrete store: one removable item between two
preserved ones. -/
theorem c9_delete_task_zone_witness :
    (deleteTaskZone [cItem, mkCreatedItem spec0 0 (4260, 60), c9ItemDecoration]).1 =
      [cItem, c9ItemDecoration] ∧
    (deleteTaskZone [cItem, mkCreatedItem spec0 0 (4260, 60), c9ItemDecoration]).2 = 1 ∧
    (cItem ∈ (deleteTaskZone [cItem, mkCreatedItem spec0 0 (4260, 60), c9ItemDecoration]).1 ↔
      taskZoneRemovable cItem = false) := by
  have h := c9_delete_task_zone [cItem, mkCreatedItem spec0 0 (4260, 60), c9ItemDecoration]
  exact ⟨h.1.trans (by decide), h.2.2.1.trans (by decide), h.2.2.2 cItem (by decide)⟩

/-! ### C10: PUT /api/board-items/:id frame effect -/

/-- C10: updating a board item returns 404 and leaves the store unchanged
when the id is absent; when the id is found at index k, the response is 200,
the echoed item is the shallow merge of the stored item with the update body
(with `updatedAt` refreshed to the server time), the store keeps its length,
position k holds the merged item, and every other position is unchanged. -/
theorem c10_put_board_item (items : List Item) (id : String) (u : ItemUpdate) (now : ℚ) :
    ((∀ i ∈ items, i.id ≠ id) → putBoardItem items id u now = (404, items, none)) ∧
    (∀ k item, items.findIdx? (fun it => it.id == id) = some k → items[k]? = some item →
      (putBoardItem items id u now).1 = 200 ∧
      (putBoardItem items id u now).2.2 = some (applyUpdate item u now) ∧
      (putBoardItem items id u now).2.1.length = items.length ∧
      (putBoardItem items id u now).2.1[k]? = some (applyUpdate item u now) ∧
      ∀ j, j ≠ k → (putBoardItem items id u now).2.1[j]? = items[j]?) := by
  constructor
  · intro h
    have hnone : items.findIdx? (fun it => it.id == id) = none := by
      rw [List.findIdx?_eq_none_iff]
      intro x hx
      simpa using h x hx
    simp [putBoardItem, hnone]
  · intro k item hfind hget
    have hlt : k < items.length := (List.getElem?_eq_some.mp hget).1
    have hgetD : items.getD k itemDefault = item := by
      rw [List.getD_eq_getElem?_getD, hget]
      rfl
    simp only [putBoardItem, hfind, hgetD]
    refine ⟨trivial, trivial, by simp, ?_, ?_⟩
    · exact List.getElem?_set_self (by simpa using hlt)
    · intro j hj
      exact List.getElem?_set_ne (Ne.symm hj)

/-- Witness for C10: a missing id gives 404 with the store unchanged; a
present id updates only the addressed item. -/
theorem c10_put_board_item_witness :
    putBoardItem [cItem, c10ItemB] "zzz" c10Update 77 = (404, [cItem, c10ItemB], none) ∧
    ((putBoardItem [cItem, c10ItemB] "b" c10Update 77).1 = 200 ∧
      (putBoardItem [cItem, c10ItemB] "b" c10Update 77).2.2 =
        some (applyUpdate c10ItemB c10Update 77) ∧
      (putBoardItem [cItem, c10ItemB] "b" c10Update 77).2.1.length = 2 ∧
      (putBoardItem [cItem, c10ItemB] "b" c10Update 77).2.1[1]? =
        some (applyUpdate c10ItemB c10Update 77) ∧
      (putBoardItem [cItem, c10ItemB] "b" c10Update 77).2.1[0]? = some cItem) := by
  have h404 := (c10_put_board_item [cItem, c10ItemB] "zzz" c10Update 77).1 (by decide)
  have h200 := (c10_put_board_item [cItem, c10ItemB] "b" c10Update 77).2 1 c10ItemB
    (by decide) (by decide)
  exact ⟨h404, h200.1, h200.2.1, h200.2.2.1.trans (by decide), h200.2.2.2.1,
    (h200.2.2.2.2 0 (by decide)).trans (by decide)⟩

end Board
